import Mathlib

/-!
Verification of the `yew_confetti` particle-animation widget (`src/lib.rs`).

The development shallowly embeds the three core components:
* the emission policy (`ModeImpl` / `emitCount`, lines 105-124 and 276-323),
* the particle state and physics (`Fetti`, lines 396-451),
* the simulation driver's timing logic (lines 259-274, 329, 341-352).

Machine integers (`u64`, `usize`, `u16`) are modelled as `Nat`; the `f32`
fields are idealised as real numbers; the `assert!`-guarded `Mode`
constructors are modelled as `Except`-returning functions.
-/

/-- Particle shape (`Shape`, lines 390-394). -/
inductive Shape where
  | Circle
  | Square
deriving DecidableEq, Repr

/-- The `ModeImpl` enum (lines 105-124).  The `Continuous.end` field is renamed `stop`
because `end` is a Lean keyword.  Times are in milliseconds since first
render; `rate` is the `u16` particles-per-second value. -/
inductive ModeImpl where
  | Burst (count : Nat) (delay : Nat)
  | Continuous (rate : Nat) (start : Nat) (stop : Nat)
deriving DecidableEq, Repr

/-- The newtype `Mode(ModeImpl)` (line 97). -/
structure Mode where
  impl : ModeImpl
deriving DecidableEq, Repr

/-- The `u64::MAX` value, the `end` of an unbounded continuous mode (line 158). -/
def U64_MAX : Nat := 18446744073709551615

/-- The `static ORDER: [u16; 1000]` low-discrepancy table (line 308),
transcribed verbatim. -/
def ORDER : List Nat := [0, 603, 549, 550, 551, 813, 553, 758, 751, 556, 557, 534, 524, 513, 504, 497, 491, 474, 469, 452, 447, 439, 433, 418, 415, 406, 397, 383, 381, 352, 346, 315, 306, 288, 268, 255, 248, 991, 228, 210, 201, 552, 196, 773, 180, 498, 159, 561, 147, 562, 139, 475, 398, 121, 384, 535, 117, 453, 353, 101, 347, 563, 316, 91, 307, 514, 289, 77, 269, 419, 256, 564, 65, 565, 968, 407, 229, 54, 211, 567, 202, 385, 690, 569, 45, 476, 695, 368, 181, 571, 348, 35, 160, 317, 881, 454, 148, 894, 505, 290, 31, 574, 270, 575, 399, 257, 122, 932, 249, 577, 434, 866, 23, 649, 230, 420, 355, 212, 102, 477, 203, 536, 580, 581, 318, 19, 92, 582, 308, 996, 400, 579, 182, 455, 78, 386, 271, 585, 161, 586, 258, 587, 588, 13, 66, 356, 589, 440, 570, 591, 140, 861, 231, 478, 55, 319, 213, 790, 627, 123, 204, 421, 387, 656, 596, 291, 744, 10, 46, 515, 272, 456, 808, 599, 357, 259, 183, 103, 705, 583, 250, 757, 36, 904, 162, 604, 320, 479, 605, 93, 232, 606, 149, 607, 804, 214, 382, 767, 292, 610, 6, 79, 611, 358, 273, 612, 613, 422, 401, 457, 197, 614, 124, 615, 953, 617, 67, 321, 618, 619, 184, 481, 960, 840, 24, 408, 622, 623, 233, 595, 163, 56, 359, 718, 215, 584, 107, 896, 274, 628, 150, 629, 435, 392, 630, 260, 631, 458, 322, 708, 4, 633, 47, 423, 634, 480, 309, 635, 636, 816, 402, 367, 638, 639, 185, 125, 234, 712, 88, 641, 349, 642, 275, 37, 643, 409, 164, 644, 645, 323, 118, 646, 797, 672, 985, 459, 14, 829, 68, 482, 361, 872, 652, 974, 198, 105, 654, 293, 869, 424, 32, 755, 657, 568, 235, 659, 276, 651, 57, 661, 324, 662, 216, 779, 664, 94, 715, 887, 126, 362, 205, 736, 165, 460, 251, 410, 668, 669, 725, 671, 294, 650, 673, 600, 2, 81, 25, 675, 403, 676, 277, 325, 236, 677, 624, 425, 679, 924, 363, 681, 141, 217, 186, 682, 106, 683, 684, 441, 685, 849, 69, 461, 558, 295, 38, 990, 689, 728, 166, 721, 692, 127, 326, 832, 278, 20, 694, 364, 95, 720, 237, 863, 697, 698, 151, 58, 699, 862, 701, 702, 218, 426, 119, 703, 954, 660, 187, 984, 707, 442, 7, 696, 82, 327, 709, 389, 365, 537, 279, 710, 711, 839, 560, 104, 167, 714, 310, 772, 238, 716, 48, 939, 992, 693, 128, 411, 590, 999, 722, 15, 723, 724, 70, 845, 328, 366, 726, 427, 727, 936, 188, 96, 280, 548, 525, 730, 731, 982, 26, 733, 142, 538, 949, 735, 640, 39, 239, 737, 738, 390, 168, 739, 59, 740, 376, 329, 741, 742, 219, 83, 743, 780, 108, 539, 745, 412, 281, 129, 746, 747, 152, 516, 748, 428, 189, 749, 391, 750, 880, 625, 261, 827, 526, 354, 240, 296, 330, 754, 688, 756, 1, 11, 885, 598, 49, 759, 169, 220, 602, 761, 282, 762, 311, 388, 763, 764, 527, 540, 506, 765, 206, 620, 369, 976, 691, 262, 912, 331, 153, 429, 130, 109, 241, 517, 770, 573, 84, 846, 962, 60, 252, 774, 753, 566, 283, 777, 40, 778, 678, 554, 143, 370, 170, 781, 782, 499, 783, 826, 332, 518, 27, 297, 785, 786, 528, 787, 788, 97, 831, 937, 242, 791, 16, 864, 507, 413, 71, 793, 284, 794, 371, 795, 796, 131, 784, 221, 798, 621, 50, 333, 110, 952, 492, 801, 298, 263, 802, 830, 171, 680, 8, 805, 508, 85, 806, 541, 807, 593, 243, 372, 809, 519, 253, 632, 811, 500, 61, 812, 594, 814, 334, 393, 815, 686, 154, 21, 817, 299, 888, 483, 98, 819, 820, 821, 822, 823, 132, 41, 373, 578, 207, 825, 898, 944, 172, 501, 244, 828, 72, 111, 144, 335, 647, 958, 766, 666, 493, 833, 509, 834, 190, 835, 836, 222, 799, 264, 470, 374, 3, 838, 86, 542, 28, 559, 837, 394, 404, 964, 842, 843, 208, 844, 336, 717, 245, 928, 510, 847, 496, 133, 173, 929, 957, 62, 850, 851, 375, 484, 789, 853, 33, 597, 223, 462, 191, 502, 855, 994, 112, 857, 616, 859, 971, 337, 199, 17, 592, 841, 626, 608, 73, 865, 246, 824, 867, 360, 300, 868, 42, 395, 776, 485, 529, 775, 871, 265, 174, 87, 472, 810, 448, 224, 134, 873, 338, 920, 875, 576, 192, 877, 5, 878, 495, 879, 377, 555, 51, 909, 882, 301, 209, 883, 884, 856, 886, 486, 891, 113, 155, 670, 63, 889, 890, 752, 471, 339, 892, 443, 893, 463, 225, 543, 175, 378, 29, 874, 895, 818, 897, 732, 899, 900, 74, 520, 901, 135, 902, 903, 200, 487, 9, 959, 905, 544, 80, 266, 340, 906, 907, 908, 350, 983, 379, 910, 436, 911, 156, 464, 769, 43, 449, 913, 914, 915, 916, 302, 114, 771, 176, 918, 919, 870, 312, 488, 921, 12, 193, 341, 922, 923, 52, 380, 601, 925, 926, 521, 473, 64, 136, 927, 145, 430, 530, 860, 511, 465, 760, 719, 18, 931, 450, 444, 876, 933, 75, 665, 935, 489, 342, 545, 351, 89, 713, 700, 177, 22, 531, 938, 800, 940, 194, 941, 99, 942, 285, 115, 943, 663, 416, 945, 946, 303, 947, 466, 948, 667, 30, 226, 950, 343, 34, 137, 437, 445, 951, 854, 858, 706, 955, 956, 44, 637, 157, 546, 609, 503, 729, 648, 286, 961, 178, 930, 963, 522, 53, 414, 917, 965, 313, 966, 344, 467, 967, 655, 969, 490, 76, 970, 90, 653, 451, 972, 973, 431, 116, 100, 438, 852, 532, 523, 146, 975, 120, 658, 138, 803, 978, 304, 979, 980, 158, 345, 405, 981, 934, 768, 179, 687, 195, 468, 792, 986, 254, 987, 988, 227, 494, 989, 704, 547, 267, 572, 734, 993, 417, 674, 287, 446, 247, 432, 305, 995, 314, 848, 512, 997, 533, 998, 977, 396]

/-- The emission policy: the per-cannon `count` computation of the driver
loop (lines 276-323).  `emitCount m s e` is how many particles mode `m`
emits for the half-open query interval `[s, e)` of simulated
milliseconds. -/
def emitCount (m : ModeImpl) (startTime endTime : Nat) : Nat :=
  match m with
  | .Burst count delay =>
      if startTime ≤ delay ∧ delay < endTime then count else 0
  | .Continuous rate start stop =>
      let effectiveStartTime := max startTime start
      let effectiveEndTime := min endTime stop
      if 0 < rate ∧ effectiveStartTime < effectiveEndTime then
        ((List.range' effectiveStartTime (effectiveEndTime - effectiveStartTime)).filter
          (fun effectiveTime => decide (ORDER.getD (effectiveTime % 1000) 0 < rate))).length
      else 0

/-- The `ORDER` table packed into one natural number, 10 bits per entry
(entry `r` is `orderPacked >>> (10*r) % 1024`).  Used only to make kernel
evaluation of facts about `ORDER` fast; `order_eq_map` below proves the
encoding agrees with the transcribed list. -/
def orderPacked : Nat := 7733890497550828395217944441720932150931276999390828555020154051092705839093918301360447016693167597705373064399328498430705077496111433704286950816238998660968240329286498654152170610268909814708008048145488563981853892255310847709559049009239046132429175277306745114987842061957836809969370142523283213955305164214923823434052617839126612065858831640336914326369935853881415326314845494074017586703024179065244301681502135862111212999633303510501421333254649829934921843321366542726389770568497952545496501374186739285294623385485329032095645159307112021652402379165168992118413008023512279702509260781017813653710715857182174624624266018129173569676379442177459847778816850058010453274593636426606095588932385587790838800603153021560164703812277285452458228300594848413560989328073695538714692755213550769243557228689824462330639094386453801589280159681316238678817674590936184728335705571322002201892388678354642074731392595768989431898336232941938544040923742448532606451747475399700073263031316490389123058622209360436371911151338688926538178406629234621553041633277661091970621459900578557475036072177228594796540529089530543692275871469824339859251991475164584958748131882203604435938079113322454723599240912527832523300522711442442347603616967810550823079462797017915765896923744989793992478548191575821532282234837223179816152575581286226424440554136080279543383797668747656949845675879701267426365338294359368897417735438044869027361541279287133738594075731338910076441684559722433213936647865478388700107704303420372388203963230372223071848820538208082098872440533944203351199631051325860582095554291196811640954348077648201248769232628251638270107821574206692971857898910108057741496687021312651071771909171968082792866067633693481966390471883413208109294927128811653372242663322090252471920031970671096307922717258728158801221265591525738720102416939535934265775895330842349523099470437434697189212068243030186721340863878969447329852301137285134791827790848201741949662886172683010073097359850206595846397597704332539895518022268989713241349559517308334791819409090385922483034297766463739502696460225188313473182983433534867009643795846407463490716326100760924375672892286929079166220152117549569368011892105256100264898150121649183793996752588784027125621313697697028937329530992170320612803177466465099854431125387984794458073822452640799163788278824904201619829737443045120457120305004842121957489292376270087862281411508904241666474437499576493939211272568705515658487294450485118486265427423737971512633402730451117753511441340267208036766121437932168221377973275415948342571520063355816106936719959319833669276397782447730883886622513815632329732268799596395874908389858351291082219880766404315768720027394805806189968939819645249764674126877504854526734963555452027120181363745945352022688330811340982066614811225322860131318390462418804310060758896280659497146540821248579846006952120057893262940915585320488757511659478790075392542275567677983922751701679110267208106374188808304946176

/-- Entry `r` of the packed `ORDER` table. -/
def orderAt (r : Nat) : Nat := orderPacked >>> (10 * r) % 1024

/-- The inverse permutation of `ORDER`, packed the same way. -/
def orderInvPacked : Nat := 8338245148344012641238878291594007316277091593436976316477242085770485592969222528272786003330838544089010355687393283354774133104161318412227164157785930325826198219284378550853207914351528661509497313687826003026409788811486089767805999608053985907622567002643045496958703962553188707727491961898705409315726490190104735394232683601109598994126681476191388781418956854300921717178000761524655699659911502390960516923684867856483427343725495201857877989419593970319438478927217154773073895766322009106433220853205133289730491780323436166880711032408292508193673453151972228727905381099305246653645156323165312021478639833134043627530995829918729788924632437815942484594219572637081852986984852265672367351688299741254129459162483891378898910397112649840920594887896529553798851164536481673713725053758450608558423733608820049235881252246474472410027469120746710103205345001117717549467857791510610800042500005670306512972010080043936276231711825686399384617150613203284277389880455362585715166357384100198398440622319130996272394066869381034123381901459508931952535821211169150936497728506069265447205242072140587365933935188770793382073928392817311324578575677633163259415523058055427487911636764809893174292232708905378121827633536225276491081248343181531274835490436453978578433812613192086729832330409876430643869352572041701999213599440539053145213887660595496615500716824687282362358660326783970139657794117231339389390704128645476719718687083495888216376584755481212199260256218652501816609648466988900895795092949928657124010866155055220672968359298613823623767695491219742554061800237972389337435933292202457352201668532995915776810064134526039676053963655499170419770677368878084752501223407375709075908185636187030982434763260041353503158536364080637641022166402927741478272644794259287569238783048260466705815151741371938140887398345654168551133145728707851969275428589800195164737728282690329355689586522631798569458356785421722120339355024979656486148408033091109847107493576766160105455145001351229740649216368954082060257425633561550310660255744285508406265693215142889050305829526232261347527156557245129058293041013769383091238404866966952564835688561519382305677758870043460157913817008432340819745080387276969593468859529967495356089084750228068694736366605737084066849163834670180856609544001500237292439345400572672299576638779965409237682062844068319950727299349139930389887669840941352959264771244231476310899951458499367457366783579146502738978692496207156086334132834588891078068303392618163550734015082477676748238956454238371281126728807380026046499694651540681883898704728741287446448950080802877746377173768051813847620995911764095557520160826614833279979453629774558133039409531978391044000297922338165589362823384675935354265883908267231362089100696565311789607888398626811468122148237408467271205048861854588662118743396993650364404849304461451513915150674135951441701819742280193814354929584038267706734381457811455401166852364461571270769151205506342299545019110275758411776

/-- Entry `r` of the packed inverse table. -/
def orderInvAt (r : Nat) : Nat := orderInvPacked >>> (10 * r) % 1024

/-! ### Driver timing (lines 259-274, 329) -/

/-- Milliseconds the clamp drops from the simulated clock: when a frame's
raw elapsed time exceeds 500 ms the driver adds the excess to `last_time`
without ever querying it (lines 261-265). -/
def skipOf (totalDeltaTime : Nat) : Nat :=
  if 500 < totalDeltaTime then totalDeltaTime - 500 else 0

/-- The clamped frame step (lines 261-265). -/
def clampOf (totalDeltaTime : Nat) : Nat := min totalDeltaTime 500

/-- The substep count `(total_delta_time / 100).max(1)` (line 267), a function
of the already-clamped step. -/
def substepsOf (totalDeltaTime : Nat) : Nat := max (totalDeltaTime / 100) 1

/-- The substep duration `total_delta_time / substeps` (line 268). -/
def substepLen (totalDeltaTime : Nat) : Nat :=
  totalDeltaTime / substepsOf totalDeltaTime

/-- The total simulated-clock advance of the substep loop of one frame:
each of the `substeps` substeps moves `last_time` forward by
`delta_time` (lines 270-274, 329). -/
def advanceOf (totalDeltaTime : Nat) : Nat :=
  substepsOf totalDeltaTime * substepLen totalDeltaTime

/-- The emission-policy query intervals `[start_time, end_time)` of one
frame with raw elapsed time `rawDelta`, as (start, length) pairs
(lines 270-283): the clamp first skips `skipOf rawDelta` ms of simulated
time, then each substep queries one `substepLen`-long interval. -/
def frameQueried (lastTime rawDelta : Nat) : List (Nat × Nat) :=
  (List.range (substepsOf (clampOf rawDelta))).map
    (fun i => (lastTime + skipOf rawDelta + i * substepLen (clampOf rawDelta),
      substepLen (clampOf rawDelta)))

/-- The value of `last_time` at the end of a frame that started at `lastTime`. -/
def frameEnd (lastTime rawDelta : Nat) : Nat :=
  lastTime + skipOf rawDelta + advanceOf (clampOf rawDelta)

/-- All query intervals over a sequence of frames with the given raw
elapsed times. -/
def runQueried : Nat → List Nat → List (Nat × Nat)
  | _, [] => []
  | lastTime, d :: ds => frameQueried lastTime d ++ runQueried (frameEnd lastTime d) ds

/-- The clamp-skipped ranges over a sequence of frames. -/
def runSkipped : Nat → List Nat → List (Nat × Nat)
  | _, [] => []
  | lastTime, d :: ds => (lastTime, skipOf d) :: runSkipped (frameEnd lastTime d) ds

/-- The value of `last_time` after a sequence of frames. -/
def runEnd : Nat → List Nat → Nat
  | lastTime, [] => lastTime
  | lastTime, d :: ds => runEnd (frameEnd lastTime d) ds

/-- How many of the given half-open `(start, length)` intervals contain
the millisecond `t`. -/
def countContaining (t : Nat) (intervals : List (Nat × Nat)) : Nat :=
  (intervals.filter (fun iv => decide (iv.1 ≤ t ∧ t < iv.1 + iv.2))).length

/-- Total emission of a mode over a list of query intervals. -/
def sumEmit (m : ModeImpl) (intervals : List (Nat × Nat)) : Nat :=
  (intervals.map (fun iv => emitCount m iv.1 (iv.1 + iv.2))).sum

/-! ### Configuration, particles and the stop condition -/

/-- The simulation fields of `ConfettiProps` (lines 10-48) with their
documented defaults; `f32` fields are idealised as reals. -/
structure ConfettiProps where
  width : Nat := 256
  height : Nat := 256
  decay : ℝ := 0.3
  gravity : ℝ := 1.0
  drift : ℝ := 0.0
  lifespan : ℝ := 2.5
  disable_for_reduced_motion : Bool := true
  scalar : ℝ := 5.0

/-- The `CannonProps` structure (lines 66-93) with its documented defaults
(`90f32.to_radians() = π/2`, `45f32.to_radians() = π/4`). -/
structure CannonProps where
  x : ℝ := 0.5
  y : ℝ := 0.5
  angle : ℝ := Real.pi / 2
  spread : ℝ := Real.pi / 4
  velocity : ℝ := 2.0
  shapes : List Shape := [Shape.Circle, Shape.Square]
  colors : List String :=
    ["#26ccff", "#a25afd", "#ff5e7e", "#88ff5a", "#fcff42", "#ffa62d", "#ff36ff"]
  mode : Mode := ⟨.Continuous 100 0 U64_MAX⟩

/-- The `Fetti` particle state (lines 396-407). -/
structure Fetti where
  x : ℝ
  y : ℝ
  wobble : ℝ
  wobble_speed : ℝ
  velocity : ℝ
  angle_2d : ℝ
  tilt_angle : ℝ
  color : String
  shape : Shape
  life_remaining : ℝ

/-- The `Fetti::update` step (lines 439-445): the state change of one physics step
of `delta` seconds.  The position update uses the pre-decay velocity; the
decay is `powf`, i.e. real exponentiation by `delta`. -/
noncomputable def Fetti.update (f : Fetti) (delta : ℝ) (props : ConfettiProps) : Fetti :=
  { f with
    x := f.x + (Real.cos f.angle_2d * f.velocity + props.drift) * delta
    y := f.y + (Real.sin f.angle_2d * f.velocity - props.gravity) * delta
    velocity := f.velocity * props.decay ^ delta
    wobble := f.wobble + f.wobble_speed * delta
    tilt_angle := f.tilt_angle + 0.1 * delta
    life_remaining := f.life_remaining - delta }

/-- The boolean result of `Fetti::update` (lines 446-450) as a
proposition: the particle is kept iff the decremented `life_remaining` is
strictly positive. -/
def Fetti.updateAlive (f : Fetti) (delta : ℝ) (props : ConfettiProps) : Prop :=
  0 < (f.update delta props).life_remaining

/-- Folding `Fetti::update` over a sequence of step deltas. -/
noncomputable def Fetti.updates (f : Fetti) (props : ConfettiProps) : List ℝ → Fetti
  | [] => f
  | d :: ds => (f.update d props).updates props ds

/-- The draw-time global alpha `life_remaining / lifespan`
(`Fetti::draw`, line 470). -/
noncomputable def Fetti.alpha (f : Fetti) (props : ConfettiProps) : ℝ :=
  f.life_remaining / props.lifespan

/-- The palette index `rand_max(len as f32) as usize` (lines 433-434): a
nonnegative `f32` cast to `usize` truncates toward zero. -/
noncomputable def floorIndex (r : ℝ) (len : Nat) : Nat := ⌊r * (len : ℝ)⌋₊

/-- The `Fetti::new` constructor (lines 421-437) with the random draws made explicit:
each `rand_unit()` result is a parameter in `[0, 1)`
(`rand_max x = rand_unit * x`, `rand_range a b = a + rand_max (b - a)`).
Slice indexing is modelled with `List.getElem?`, so the panic on an
out-of-bounds palette index is `none`. -/
noncomputable def Fetti.new (props : ConfettiProps) (cannon : CannonProps)
    (rAngle rMag rWobble rWobbleSpeed rTilt rColor rShape : ℝ) : Option Fetti :=
  match cannon.colors[floorIndex rColor cannon.colors.length]?,
      cannon.shapes[floorIndex rShape cannon.shapes.length]? with
  | some color, some shape =>
      some
        { x := cannon.x
          y := cannon.y
          wobble := rWobble
          wobble_speed := 0.01 + rWobbleSpeed * (0.015 - 0.01)
          velocity := cannon.velocity *
            (0.9 + 0.1 * Real.sin (rAngle * (2 * Real.pi)) * Real.sqrt rMag)
          angle_2d := cannon.angle +
            Real.cos (rAngle * (2 * Real.pi)) * cannon.spread * 0.5 * Real.sqrt rMag
          tilt_angle := rTilt * (2 * Real.pi)
          color := color
          shape := shape
          life_remaining := props.lifespan }
  | _, _ => none

/-! ### `Mode` constructors (lines 126-223) -/

/-- The `round_time` helper (lines 126-128): seconds to milliseconds, rounded to
nearest, cast to `u64`.  Every caller asserts its argument nonnegative
first, where `f32::round` (half away from zero) agrees with rounding half
up. -/
noncomputable def round_time (seconds : ℝ) : Nat := (round (seconds * 1000)).toNat

/-- Constructor `Mode::burst` (lines 131-134); no validation. -/
def Mode.burst (count : Nat) : Mode := ⟨.Burst count 0⟩

/-- Constructor `Mode::delayed_burst` (lines 136-143); the `assert!(delay >= 0.0)`
panic is the `Except.error` case. -/
noncomputable def Mode.delayed_burst (count : Nat) (delay : ℝ) : Except String Mode :=
  if 0 ≤ delay then .ok ⟨.Burst count (round_time delay)⟩
  else .error "delay >= 0.0"

/-- Constructor `Mode::continuous` (lines 149-160); panics if `rate > 1000`. -/
def Mode.continuous (rate : Nat) : Except String Mode :=
  if rate ≤ 1000 then .ok ⟨.Continuous rate 0 U64_MAX⟩
  else .error "rate <= 1000"

/-- Constructor `Mode::delayed_continuous` (lines 162-175); asserts `rate ≤ 1000`,
then `delay ≥ 0`. -/
noncomputable def Mode.delayed_continuous (rate : Nat) (delay : ℝ) : Except String Mode :=
  if rate ≤ 1000 then
    if 0 ≤ delay then .ok ⟨.Continuous rate (round_time delay) U64_MAX⟩
    else .error "delay >= 0.0"
  else .error "rate <= 1000"

/-- Constructor `Mode::finite_continuous` (lines 177-190); asserts `rate ≤ 1000`,
then `duration ≥ 0`. -/
noncomputable def Mode.finite_continuous (rate : Nat) (duration : ℝ) : Except String Mode :=
  if rate ≤ 1000 then
    if 0 ≤ duration then .ok ⟨.Continuous rate 0 (round_time duration)⟩
    else .error "duration >= 0.0"
  else .error "rate <= 1000"

/-- Constructor `Mode::delayed_finite_continuous` (lines 192-208); asserts
`rate ≤ 1000`, `delay ≥ 0`, `duration ≥ 0`. -/
noncomputable def Mode.delayed_finite_continuous (rate : Nat) (delay duration : ℝ) :
    Except String Mode :=
  if rate ≤ 1000 then
    if 0 ≤ delay then
      if 0 ≤ duration then
        .ok ⟨.Continuous rate (round_time delay) (round_time (delay + duration))⟩
      else .error "duration >= 0.0"
    else .error "delay >= 0.0"
  else .error "rate <= 1000"

/-! ### The stop condition (lines 341-345) -/

/-- The per-emitter test of the stop condition (lines 342-345). -/
def modeElapsed (m : Mode) (lastTime : Nat) : Bool :=
  match m.impl with
  | .Burst _ delay => decide (lastTime > delay)
  | .Continuous _ _ stop => decide (lastTime > stop)

/-- The `done` stop condition (lines 341-345): after a frame the driver
schedules no further animation frame exactly when this holds. -/
def doneCheck (confetti : List Fetti) (modes : List Mode) (lastTime : Nat) : Bool :=
  confetti.isEmpty && modes.all (fun m => modeElapsed m lastTime)

/-- The spec's notion of an emitter's emission window having fully elapsed
relative to the simulated clock, stated from the spec's words ("burst
delay passed, or continuous end passed"), to be compared with the code's
`modeElapsed`. -/
def windowFullyElapsedSpec (m : Mode) (lastTime : Nat) : Prop :=
  match m.impl with
  | .Burst _ delay => delay < lastTime
  | .Continuous _ _ stop => stop < lastTime

set_option maxRecDepth 10000 in
/-- The packed encoding agrees with the transcribed `ORDER` list. -/
theorem order_eq_map : ORDER = (List.range 1000).map orderAt := by rfl

/-- C1: for a Burst mode with parameters `count` and `delay` and any queried
half-open interval `[s, e)` of simulated milliseconds, the emission policy
returns `count` when `delay` lies in `[s, e)` and `0` otherwise. -/
theorem burst_emission_count (count delay s e : Nat) :
    (s ≤ delay ∧ delay < e → emitCount (.Burst count delay) s e = count) ∧
    (¬ (s ≤ delay ∧ delay < e) → emitCount (.Burst count delay) s e = 0) := by
  constructor <;> intro h <;> simp [emitCount, h]

/-- Witness for C1 at `count = 3`, `delay = 5`: the interval `[0, 10)`
containing the delay yields 3 and the interval `[10, 20)` yields 0. -/
theorem burst_emission_count_witness :
    emitCount (.Burst 3 5) 0 10 = 3 ∧ emitCount (.Burst 3 5) 10 20 = 0 :=
  ⟨(burst_emission_count 3 5 0 10).1 (by decide),
   (burst_emission_count 3 5 10 20).2 (by decide)⟩

set_option maxRecDepth 10000 in
/-- Bijectivity data for entries 0..99 of the packed tables. -/
theorem order_table_chunk_0 : ∀ r, r < 100 →
    orderAt r < 1000 ∧ orderInvAt r < 1000 ∧
    orderAt (orderInvAt r) = r ∧
    orderInvAt (orderAt r) = r := by decide

set_option maxRecDepth 10000 in
/-- Bijectivity data for entries 100..199 of the packed tables. -/
theorem order_table_chunk_1 : ∀ r, r < 100 →
    orderAt (100 + r) < 1000 ∧ orderInvAt (100 + r) < 1000 ∧
    orderAt (orderInvAt (100 + r)) = (100 + r) ∧
    orderInvAt (orderAt (100 + r)) = (100 + r) := by decide

set_option maxRecDepth 10000 in
/-- Bijectivity data for entries 200..299 of the packed tables. -/
theorem order_table_chunk_2 : ∀ r, r < 100 →
    orderAt (200 + r) < 1000 ∧ orderInvAt (200 + r) < 1000 ∧
    orderAt (orderInvAt (200 + r)) = (200 + r) ∧
    orderInvAt (orderAt (200 + r)) = (200 + r) := by decide

set_option maxRecDepth 10000 in
/-- Bijectivity data for entries 300..399 of the packed tables. -/
theorem order_table_chunk_3 : ∀ r, r < 100 →
    orderAt (300 + r) < 1000 ∧ orderInvAt (300 + r) < 1000 ∧
    orderAt (orderInvAt (300 + r)) = (300 + r) ∧
    orderInvAt (orderAt (300 + r)) = (300 + r) := by decide

set_option maxRecDepth 10000 in
/-- Bijectivity data for entries 400..499 of the packed tables. -/
theorem order_table_chunk_4 : ∀ r, r < 100 →
    orderAt (400 + r) < 1000 ∧ orderInvAt (400 + r) < 1000 ∧
    orderAt (orderInvAt (400 + r)) = (400 + r) ∧
    orderInvAt (orderAt (400 + r)) = (400 + r) := by decide

set_option maxRecDepth 10000 in
/-- Bijectivity data for entries 500..599 of the packed tables. -/
theorem order_table_chunk_5 : ∀ r, r < 100 →
    orderAt (500 + r) < 1000 ∧ orderInvAt (500 + r) < 1000 ∧
    orderAt (orderInvAt (500 + r)) = (500 + r) ∧
    orderInvAt (orderAt (500 + r)) = (500 + r) := by decide

set_option maxRecDepth 10000 in
/-- Bijectivity data for entries 600..699 of the packed tables. -/
theorem order_table_chunk_6 : ∀ r, r < 100 →
    orderAt (600 + r) < 1000 ∧ orderInvAt (600 + r) < 1000 ∧
    orderAt (orderInvAt (600 + r)) = (600 + r) ∧
    orderInvAt (orderAt (600 + r)) = (600 + r) := by decide

set_option maxRecDepth 10000 in
/-- Bijectivity data for entries 700..799 of the packed tables. -/
theorem order_table_chunk_7 : ∀ r, r < 100 →
    orderAt (700 + r) < 1000 ∧ orderInvAt (700 + r) < 1000 ∧
    orderAt (orderInvAt (700 + r)) = (700 + r) ∧
    orderInvAt (orderAt (700 + r)) = (700 + r) := by decide

set_option maxRecDepth 10000 in
/-- Bijectivity data for entries 800..899 of the packed tables. -/
theorem order_table_chunk_8 : ∀ r, r < 100 →
    orderAt (800 + r) < 1000 ∧ orderInvAt (800 + r) < 1000 ∧
    orderAt (orderInvAt (800 + r)) = (800 + r) ∧
    orderInvAt (orderAt (800 + r)) = (800 + r) := by decide

set_option maxRecDepth 10000 in
/-- Bijectivity data for entries 900..999 of the packed tables. -/
theorem order_table_chunk_9 : ∀ r, r < 100 →
    orderAt (900 + r) < 1000 ∧ orderInvAt (900 + r) < 1000 ∧
    orderAt (orderInvAt (900 + r)) = (900 + r) ∧
    orderInvAt (orderAt (900 + r)) = (900 + r) := by decide

/-- The packed `ORDER` table is a bijection of `0..999` with explicit
inverse `orderInvAt`, entrywise. -/
theorem order_table_facts : ∀ r, r < 1000 →
    orderAt r < 1000 ∧ orderInvAt r < 1000 ∧
    orderAt (orderInvAt r) = r ∧ orderInvAt (orderAt r) = r := by
  intro r h
  rcases Nat.lt_or_ge r 100 with h0 | h0
  · exact order_table_chunk_0 r h0
  rcases Nat.lt_or_ge r 200 with h1 | h1
  · have hc := order_table_chunk_1 (r - 100) (by omega)
    rwa [show 100 + (r - 100) = r by omega] at hc
  rcases Nat.lt_or_ge r 300 with h2 | h2
  · have hc := order_table_chunk_2 (r - 200) (by omega)
    rwa [show 200 + (r - 200) = r by omega] at hc
  rcases Nat.lt_or_ge r 400 with h3 | h3
  · have hc := order_table_chunk_3 (r - 300) (by omega)
    rwa [show 300 + (r - 300) = r by omega] at hc
  rcases Nat.lt_or_ge r 500 with h4 | h4
  · have hc := order_table_chunk_4 (r - 400) (by omega)
    rwa [show 400 + (r - 400) = r by omega] at hc
  rcases Nat.lt_or_ge r 600 with h5 | h5
  · have hc := order_table_chunk_5 (r - 500) (by omega)
    rwa [show 500 + (r - 500) = r by omega] at hc
  rcases Nat.lt_or_ge r 700 with h6 | h6
  · have hc := order_table_chunk_6 (r - 600) (by omega)
    rwa [show 600 + (r - 600) = r by omega] at hc
  rcases Nat.lt_or_ge r 800 with h7 | h7
  · have hc := order_table_chunk_7 (r - 700) (by omega)
    rwa [show 700 + (r - 700) = r by omega] at hc
  rcases Nat.lt_or_ge r 900 with h8 | h8
  · have hc := order_table_chunk_8 (r - 800) (by omega)
    rwa [show 800 + (r - 800) = r by omega] at hc
  rcases Nat.lt_or_ge r 1000 with h9 | h9
  · have hc := order_table_chunk_9 (r - 900) (by omega)
    rwa [show 900 + (r - 900) = r by omega] at hc
  omega

/-- The transcribed `ORDER` list agrees with the packed table on indices
below 1000 (`ORDER[t % 1000]` in the code always hits such an index). -/
theorem order_getD_eq (t : Nat) (h : t < 1000) : ORDER.getD t 0 = orderAt t := by
  rw [order_eq_map, List.getD_eq_getElem?_getD, List.getElem?_map, List.getElem?_range h]
  rfl

/-- The `ORDER` table has no duplicate entries. -/
theorem order_nodup : ORDER.Nodup := by
  rw [order_eq_map]
  refine List.Nodup.map_on ?_ (List.nodup_range 1000)
  intro x hx y hy hxy
  rw [List.mem_range] at hx hy
  have ex := (order_table_facts x hx).2.2.2
  have ey := (order_table_facts y hy).2.2.2
  rw [← ex, ← ey, hxy]

/-- The entries of `ORDER` are exactly `0..999` as a set. -/
theorem order_toFinset : ORDER.toFinset = (List.range 1000).toFinset := by
  ext x
  simp only [List.mem_toFinset, order_eq_map, List.mem_map, List.mem_range]
  constructor
  · rintro ⟨y, hy, rfl⟩
    exact (order_table_facts y hy).1
  · intro hx
    exact ⟨orderInvAt x, (order_table_facts x hx).2.1, (order_table_facts x hx).2.2.1⟩

/-- The `ORDER` table is a permutation of `0..999`. -/
theorem order_perm_range : List.Perm ORDER (List.range 1000) :=
  List.perm_of_nodup_nodup_toFinset_eq order_nodup (List.nodup_range 1000) order_toFinset

/-- Thresholding the packed table at `R ≤ 1000` keeps exactly `R` of the
indices `0..999`. -/
theorem card_filter_orderAt_lt (R : Nat) (hR : R ≤ 1000) :
    ((Finset.range 1000).filter (fun t => orderAt t < R)).card = R := by
  have himg : Finset.image orderAt ((Finset.range 1000).filter (fun t => orderAt t < R)) =
      Finset.range R := by
    ext y
    simp only [Finset.mem_image, Finset.mem_filter, Finset.mem_range]
    constructor
    · rintro ⟨x, ⟨-, hlt⟩, rfl⟩
      exact hlt
    · intro hy
      exact ⟨orderInvAt y, ⟨(order_table_facts y (by omega)).2.1, by
        rw [(order_table_facts y (by omega)).2.2.1]; exact hy⟩,
        (order_table_facts y (by omega)).2.2.1⟩
  have hinj : Set.InjOn orderAt ((Finset.range 1000).filter (fun t => orderAt t < R) : Finset ℕ) := by
    intro x hx y hy hxy
    simp only [Finset.coe_filter, Set.mem_setOf_eq, Finset.mem_range] at hx hy
    have ex := (order_table_facts x hx.1).2.2.2
    have ey := (order_table_facts y hy.1).2.2.2
    rw [← ex, ← ey, hxy]
  rw [← Finset.card_image_of_injOn hinj, himg, Finset.card_range]

/-- List-level version of `card_filter_orderAt_lt`. -/
theorem length_filter_range_orderAt (R : Nat) (hR : R ≤ 1000) :
    ((List.range 1000).filter (fun t => decide (orderAt t < R))).length = R := by
  have hbridge : ((List.range 1000).filter (fun t => decide (orderAt t < R))).length
      = ((Finset.range 1000).filter (fun t => orderAt t < R)).card := by
    rw [Finset.card_def, Finset.filter_val, Finset.range_val, ← Multiset.coe_range,
      Multiset.filter_coe, Multiset.coe_card]
  rw [hbridge, card_filter_orderAt_lt R hR]

/-- Counting a 1000-periodic predicate over any length-1000 interval gives
the same answer as over `[0, 1000)`. -/
theorem cnt_shift (p : Nat → Bool) (hp : ∀ t, p (t + 1000) = p t) (a : Nat) :
    ((List.range' a 1000).filter p).length = ((List.range 1000).filter p).length := by
  induction a with
  | zero => rw [List.range_eq_range']
  | succ a ih =>
    have h1 : List.range' a 1001 = a :: List.range' (a + 1) 1000 := List.range'_succ a 1000 1
    have h2 : List.range' a 1001 = List.range' a 1000 ++ [a + 1000] :=
      List.range'_1_concat a 1000
    have eA : ((List.range' a 1001).filter p).length
        = (if p a = true then 1 else 0) + ((List.range' (a + 1) 1000).filter p).length := by
      rw [h1, List.filter_cons]
      cases p a
      · simp
      · simp
        omega
    have eB : ((List.range' a 1001).filter p).length
        = ((List.range' a 1000).filter p).length + (if p a = true then 1 else 0) := by
      rw [h2, List.filter_append, List.length_append]
      have hs : p (a + 1000) = p a := hp a
      cases hpa : p a <;> simp [List.filter_cons, hs, hpa]
    have heq := eA.symm.trans eB
    cases hpa : p a <;> rw [hpa] at heq <;> simp at heq <;> omega

/-- Over any window `[a, a + 1000)` the continuous-mode predicate passes for
exactly `R` of the milliseconds, for any threshold rate `R ≤ 1000`. -/
theorem cnt_window (R a : Nat) (hR : R ≤ 1000) :
    ((List.range' a 1000).filter
      (fun t => decide (ORDER.getD (t % 1000) 0 < R))).length = R := by
  have hcong : ∀ l : List Nat,
      l.filter (fun t => decide (ORDER.getD (t % 1000) 0 < R))
        = l.filter (fun t => decide (orderAt (t % 1000) < R)) := by
    intro l
    apply List.filter_congr
    intro t _
    rw [order_getD_eq (t % 1000) (Nat.mod_lt _ (by omega))]
  rw [hcong]
  rw [cnt_shift (fun t => decide (orderAt (t % 1000) < R))
    (fun t => by simp [Nat.add_mod_right]) a]
  have hred : (List.range 1000).filter (fun t => decide (orderAt (t % 1000) < R))
      = (List.range 1000).filter (fun t => decide (orderAt t < R)) := by
    apply List.filter_congr
    intro t ht
    rw [List.mem_range] at ht
    rw [Nat.mod_eq_of_lt ht]
  rw [hred, length_filter_range_orderAt R hR]

/-- The `rate > 0 && end > start` guard in the continuous branch is
redundant: the filtered count itself is 0 in the guarded-out cases. -/
theorem emitCount_continuous_eq (R start stop s e : Nat) :
    emitCount (.Continuous R start stop) s e =
      ((List.range' (max s start) (min e stop - max s start)).filter
        (fun t => decide (ORDER.getD (t % 1000) 0 < R))).length := by
  show (if 0 < R ∧ max s start < min e stop then _ else 0) = _
  split
  · rfl
  · next h =>
    rcases Nat.eq_zero_or_pos R with hR | hR
    · subst hR
      rw [List.filter_eq_nil_iff.mpr (fun t _ => by simp)]
      rfl
    · have hle : min e stop ≤ max s start := by
        rcases Nat.lt_or_ge (max s start) (min e stop) with h2 | h2
        · exact absurd ⟨hR, h2⟩ h
        · exact h2
      rw [show min e stop - max s start = 0 by omega]
      rfl

/-- Counting a predicate over adjacent half-open intervals is additive. -/
theorem cnt_add (p : Nat → Bool) (x y z : Nat) (hxy : x ≤ y) (hyz : y ≤ z) :
    ((List.range' x (y - x)).filter p).length + ((List.range' y (z - y)).filter p).length
      = ((List.range' x (z - x)).filter p).length := by
  have h := List.range'_append_1 x (y - x) (z - y)
  rw [show x + (y - x) = y by omega, show z - y + (y - x) = z - x by omega] at h
  rw [← h, List.filter_append, List.length_append]

/-- C2: the `ORDER` table is a permutation of `0..999`; consequently a
Continuous mode with rate `R ≤ 1000` emits exactly `R` particles over any
1000 ms window lying inside its active window `[start, stop)`; a rate of 0
never emits, and a rate of 1000 emits every millisecond of its window. -/
theorem continuous_window_emission (R start stop a : Nat)
    (hR : R ≤ 1000) (hs : start ≤ a) (he : a + 1000 ≤ stop) :
    List.Perm ORDER (List.range 1000) ∧
    emitCount (.Continuous R start stop) a (a + 1000) = R ∧
    (∀ s e : Nat, emitCount (.Continuous 0 start stop) s e = 0) ∧
    (∀ s e : Nat, start ≤ s → e ≤ stop →
      emitCount (.Continuous 1000 start stop) s e = e - s) := by
  refine ⟨order_perm_range, ?_, ?_, ?_⟩
  · rw [emitCount_continuous_eq, show max a start = a by omega,
      show min (a + 1000) stop = a + 1000 by omega, show a + 1000 - a = 1000 by omega]
    exact cnt_window R a hR
  · intro s e
    simp [emitCount]
  · intro s e hs' he'
    rw [emitCount_continuous_eq, show max s start = s by omega,
      show min e stop = e by omega]
    rw [List.filter_eq_self.mpr, List.length_range']
    intro t ht
    have h1 : t % 1000 < 1000 := Nat.mod_lt _ (by omega)
    rw [order_getD_eq (t % 1000) h1]
    simpa using (order_table_facts (t % 1000) h1).1

/-- Witness for C2: a rate-7 mode active on `[0, 2000)` emits exactly 7
particles over the window `[0, 1000)`; rate 0 emits nothing on `[0, 500)`;
rate 1000 emits 500 particles on `[250, 750)`. -/
theorem continuous_window_emission_witness :
    emitCount (.Continuous 7 0 2000) 0 1000 = 7 ∧
    emitCount (.Continuous 0 0 2000) 0 500 = 0 ∧
    emitCount (.Continuous 1000 0 2000) 250 750 = 750 - 250 :=
  ⟨(continuous_window_emission 7 0 2000 0 (by decide) (by decide) (by decide)).2.1,
   (continuous_window_emission 0 0 2000 0 (by decide) (by decide) (by decide)).2.2.1 0 500,
   (continuous_window_emission 1000 0 2000 0 (by decide) (by decide) (by decide)).2.2.2
     250 750 (by decide) (by decide)⟩

/-- C3: for every Continuous mode, emission counts are
interval-decomposition invariant: `emit [a,b) + emit [b,c) = emit [a,c)`
whenever `a ≤ b ≤ c`. -/
theorem emission_interval_additive (R start stop a b c : Nat)
    (hab : a ≤ b) (hbc : b ≤ c) :
    emitCount (.Continuous R start stop) a b + emitCount (.Continuous R start stop) b c
      = emitCount (.Continuous R start stop) a c := by
  rw [emitCount_continuous_eq, emitCount_continuous_eq, emitCount_continuous_eq]
  rcases Nat.lt_or_ge b start with hb | hb
  · have h1 : min b stop - max a start = 0 := by omega
    have h2 : max b start = max a start := by omega
    rw [h1, h2]
    simp [List.range']
  rcases Nat.lt_or_ge stop b with hb2 | hb2
  · have h1 : min c stop - max b start = 0 := by omega
    have h2 : min b stop = min c stop := by omega
    rw [h1, h2]
    simp [List.range']
  · rw [show min b stop = b by omega, show max b start = b by omega]
    exact cnt_add _ (max a start) b (min c stop) (by omega) (by omega)

/-- Witness for C3 at rate 7, window `[0, 2000)`, split `[100,400) + [400,900)`. -/
theorem emission_interval_additive_witness :
    emitCount (.Continuous 7 0 2000) 100 400 + emitCount (.Continuous 7 0 2000) 400 900
      = emitCount (.Continuous 7 0 2000) 100 900 :=
  emission_interval_additive 7 0 2000 100 400 900 (by decide) (by decide)

/-- C4: one `Fetti::update` step changes `x` by
`(cos angle_2d * velocity + drift) * dt` and `y` by
`(sin angle_2d * velocity - gravity) * dt` using the pre-decay velocity,
multiplies `velocity` by `decay ^ dt`, adds `wobble_speed * dt` to
`wobble`, adds `0.1 * dt` to `tilt_angle` and subtracts `dt` from
`life_remaining`; with `gravity = 1`, `drift = 0`, `decay = 1`,
`lifespan = 1`, a particle with `angle_2d = 0`, `velocity = 1` advanced by
`dt = 1` gains exactly `+1` in `x`, `-1` in `y` and is reported dead with
`life_remaining` exactly `0`. -/
theorem fetti_update_integration :
    (∀ (f : Fetti) (props : ConfettiProps) (dt : ℝ), 0 ≤ dt →
      (f.update dt props).x = f.x + (Real.cos f.angle_2d * f.velocity + props.drift) * dt ∧
      (f.update dt props).y = f.y + (Real.sin f.angle_2d * f.velocity - props.gravity) * dt ∧
      (f.update dt props).velocity = f.velocity * props.decay ^ dt ∧
      (f.update dt props).wobble = f.wobble + f.wobble_speed * dt ∧
      (f.update dt props).tilt_angle = f.tilt_angle + 0.1 * dt ∧
      (f.update dt props).life_remaining = f.life_remaining - dt) ∧
    (∀ (f : Fetti) (props : ConfettiProps),
      props.gravity = 1 → props.drift = 0 → props.decay = 1 → props.lifespan = 1 →
      f.angle_2d = 0 → f.velocity = 1 → f.life_remaining = props.lifespan →
      (f.update 1 props).x = f.x + 1 ∧
      (f.update 1 props).y = f.y - 1 ∧
      (f.update 1 props).life_remaining = 0 ∧
      ¬ f.updateAlive 1 props) := by
  constructor
  · intro f props dt _
    exact ⟨rfl, rfl, rfl, rfl, rfl, rfl⟩
  · intro f props hg hd hc hl ha hv hlife
    simp only [Fetti.update, Fetti.updateAlive, hg, hd, hc, hl, ha, hv, hlife,
      Real.cos_zero, Real.sin_zero, Real.one_rpow]
    norm_num [sub_eq_add_neg]

/-- Witness for C4 at a concrete particle and `dt = 1`. -/
theorem fetti_update_integration_witness :
    (({ x := 0, y := 0, wobble := 0, wobble_speed := 0, velocity := 1, angle_2d := 0,
        tilt_angle := 0, color := "#26ccff", shape := .Circle, life_remaining := 1 } :
        Fetti).update 1
      { gravity := 1, drift := 0, decay := 1, lifespan := 1 }).life_remaining
      = (1 : ℝ) - 1 :=
  (fetti_update_integration.1 _ _ 1 zero_le_one).2.2.2.2.2

/-- C5: `life_remaining` is non-increasing under `update` steps with
`dt ≥ 0` (single step and folded over any sequence); the particle is
reported dead exactly when the decremented `life_remaining` is `≤ 0`; and
a retained particle whose initial `life_remaining` was at most `lifespan`
still satisfies `0 < life_remaining ≤ lifespan`, so its draw-time alpha
`life_remaining / lifespan` lies in `(0, 1]`. -/
theorem life_remaining_invariants :
    (∀ (f : Fetti) (props : ConfettiProps) (dt : ℝ), 0 ≤ dt →
      (f.update dt props).life_remaining ≤ f.life_remaining) ∧
    (∀ (f : Fetti) (props : ConfettiProps) (dts : List ℝ), (∀ d ∈ dts, 0 ≤ d) →
      (f.updates props dts).life_remaining ≤ f.life_remaining) ∧
    (∀ (f : Fetti) (props : ConfettiProps) (dt : ℝ),
      (¬ f.updateAlive dt props ↔ (f.update dt props).life_remaining ≤ 0)) ∧
    (∀ (f : Fetti) (props : ConfettiProps) (dts : List ℝ),
      f.life_remaining ≤ props.lifespan → (∀ d ∈ dts, 0 ≤ d) →
      0 < (f.updates props dts).life_remaining →
      (f.updates props dts).life_remaining ≤ props.lifespan ∧
      0 < (f.updates props dts).alpha props ∧ (f.updates props dts).alpha props ≤ 1) := by
  have hstep : ∀ (f : Fetti) (props : ConfettiProps) (dt : ℝ), 0 ≤ dt →
      (f.update dt props).life_remaining ≤ f.life_remaining := by
    intro f props dt hdt
    show f.life_remaining - dt ≤ f.life_remaining
    exact sub_le_self _ hdt
  have hfold : ∀ (props : ConfettiProps) (dts : List ℝ) (f : Fetti), (∀ d ∈ dts, 0 ≤ d) →
      (f.updates props dts).life_remaining ≤ f.life_remaining := by
    intro props dts
    induction dts with
    | nil => intro f _; exact le_refl _
    | cons d ds ih =>
      intro f hd
      calc ((f.update d props).updates props ds).life_remaining
          ≤ (f.update d props).life_remaining := ih _ (fun x hx => hd x (List.mem_cons_of_mem d hx))
        _ ≤ f.life_remaining := hstep f props d (hd d (List.mem_cons_self d ds))
  refine ⟨hstep, fun f props dts h => hfold props dts f h, ?_, ?_⟩
  · intro f props dt
    rw [Fetti.updateAlive, not_lt]
  · intro f props dts hle hd hpos
    have h1 : (f.updates props dts).life_remaining ≤ props.lifespan :=
      le_trans (hfold props dts f hd) hle
    have h2 : (0 : ℝ) < props.lifespan := lt_of_lt_of_le hpos h1
    exact ⟨h1, div_pos hpos h2, (div_le_one h2).mpr h1⟩

/-- Witness for C5 at a concrete particle, `lifespan = 1`, steps `[0]`. -/
theorem life_remaining_invariants_witness :
    (({ x := 0, y := 0, wobble := 0, wobble_speed := 0, velocity := 1, angle_2d := 0,
        tilt_angle := 0, color := "#26ccff", shape := .Circle, life_remaining := 1 } :
        Fetti).updates { lifespan := 1 } [0]).alpha { lifespan := 1 } ≤ 1 :=
  (life_remaining_invariants.2.2.2 _ { lifespan := 1 } [0] le_rfl
    (by intro d hd; simp at hd; simp [hd])
    (by simp [Fetti.updates, Fetti.update])).2.2

/-- C6: the driver's stop condition holds iff the live-particle set is
empty and every emitter's emission window has fully elapsed relative to
the simulated clock (burst delay passed; continuous end passed); in
particular an elapsed burst with an empty particle set stops the loop, and
an unexpired continuous window keeps it running even with no particles. -/
theorem driver_done_condition :
    (∀ (confetti : List Fetti) (modes : List Mode) (lastTime : Nat),
      doneCheck confetti modes lastTime = true ↔
        confetti = [] ∧ ∀ m ∈ modes, windowFullyElapsedSpec m lastTime) ∧
    (∀ (count delay lastTime : Nat), delay < lastTime →
      doneCheck [] [⟨.Burst count delay⟩] lastTime = true) ∧
    (∀ (rate start stop lastTime : Nat), lastTime ≤ stop →
      doneCheck [] [⟨.Continuous rate start stop⟩] lastTime = false) := by
  have hm : ∀ (m : Mode) (lastTime : Nat),
      modeElapsed m lastTime = true ↔ windowFullyElapsedSpec m lastTime := by
    intro m lastTime
    rcases m with ⟨mi⟩
    cases mi <;> simp [modeElapsed, windowFullyElapsedSpec]
  refine ⟨?_, ?_, ?_⟩
  · intro confetti modes lastTime
    rw [doneCheck, Bool.and_eq_true, List.all_eq_true, List.isEmpty_iff]
    constructor
    · rintro ⟨h1, h2⟩
      exact ⟨h1, fun m hmem => (hm m lastTime).mp (h2 m hmem)⟩
    · rintro ⟨h1, h2⟩
      exact ⟨h1, fun m hmem => (hm m lastTime).mpr (h2 m hmem)⟩
  · intro count delay lastTime h
    simp [doneCheck, modeElapsed, h]
  · intro rate start stop lastTime h
    simp [doneCheck, modeElapsed]
    omega

/-- Witness for C6: a burst with `delay = 3` and empty particle set stops
the loop at `last_time = 10`; a continuous mode running to `stop = 5000`
does not stop it at `last_time = 10`. -/
theorem driver_done_condition_witness :
    doneCheck [] [⟨.Burst 5 3⟩] 10 = true ∧
    doneCheck [] [⟨.Continuous 100 0 5000⟩] 10 = false :=
  ⟨driver_done_condition.2.1 5 3 10 (by decide),
   driver_done_condition.2.2 100 0 5000 10 (by decide)⟩

/-- C7 counterexample: the claim that every substep is at most 100 ms and
that the substeps advance the clock by exactly `T` fails.  At clamped
elapsed time `T = 150` the driver runs a single substep of 150 ms; at
`T = 301` the three 100 ms substeps advance the clock by only 300 ms. -/
theorem substep_schedule_counterexample :
    (150 ≤ 500 ∧ ¬ substepLen 150 ≤ 100) ∧
    (301 ≤ 500 ∧ advanceOf 301 ≠ 301) := by decide

/-- C7 amended: for a clamped frame step `T ≤ 500` ms the driver runs at
least one substep; each substep lasts at most 199 ms (not 100 ms); and the
substeps together advance the simulated clock by
`substeps * (T / substeps) = T - T % substeps`, which may fall short of
`T` by up to `substeps - 1 ≤ 4` ms. -/
theorem substep_schedule_amended (T : Nat) (hT : T ≤ 500) :
    1 ≤ substepsOf T ∧ substepLen T ≤ 199 ∧
    advanceOf T = T - T % substepsOf T ∧ T - advanceOf T ≤ 4 := by
  simp only [substepLen, advanceOf, substepsOf]
  have hc : max (T / 100) 1 = 1 ∨ max (T / 100) 1 = 2 ∨ max (T / 100) 1 = 3 ∨
      max (T / 100) 1 = 4 ∨ max (T / 100) 1 = 5 := by omega
  rcases hc with h | h | h | h | h <;> rw [h] <;> omega

/-- Witness for C7 amended at `T = 460`: two substeps of 230... -/
theorem substep_schedule_amended_witness :
    1 ≤ substepsOf 460 ∧ substepLen 460 ≤ 199 ∧
    advanceOf 460 = 460 - 460 % substepsOf 460 ∧ 460 - advanceOf 460 ≤ 4 :=
  substep_schedule_amended 460 (by decide)

/-- Containment counts distribute over cons. -/
theorem countContaining_cons (t : Nat) (iv : Nat × Nat) (l : List (Nat × Nat)) :
    countContaining t (iv :: l)
      = (if iv.1 ≤ t ∧ t < iv.1 + iv.2 then 1 else 0) + countContaining t l := by
  unfold countContaining
  rw [List.filter_cons]
  by_cases h : iv.1 ≤ t ∧ t < iv.1 + iv.2
  · simp [h]
    omega
  · simp [h]

/-- Containment counts distribute over append. -/
theorem countContaining_append (t : Nat) (l1 l2 : List (Nat × Nat)) :
    countContaining t (l1 ++ l2) = countContaining t l1 + countContaining t l2 := by
  unfold countContaining
  rw [List.filter_append, List.length_append]

/-- A run of `n` contiguous tiles of width `δ` starting at `a` contains a
millisecond `t` exactly once if `a ≤ t < a + n * δ` and never otherwise. -/
theorem count_tiles (t δ : Nat) : ∀ n a : Nat,
    countContaining t ((List.range n).map (fun i => (a + i * δ, δ)))
      = if a ≤ t ∧ t < a + n * δ then 1 else 0 := by
  intro n
  induction n with
  | zero =>
    intro a
    rw [if_neg (by omega)]
    rfl
  | succ n ih =>
    intro a
    rw [List.range_succ, List.map_append, countContaining_append, ih a]
    simp only [List.map_cons, List.map_nil]
    rw [countContaining_cons]
    show _ = if a ≤ t ∧ t < a + (n + 1) * δ then 1 else 0
    rw [show (n + 1) * δ = n * δ + δ by ring]
    have hc : countContaining t [] = 0 := rfl
    rw [hc]
    generalize n * δ = k
    split_ifs <;> omega

/-- One frame's query intervals cover `[lastTime + skip, frameEnd)` exactly
once and nothing else. -/
theorem frame_count (t lastTime rawDelta : Nat) :
    countContaining t (frameQueried lastTime rawDelta)
      = if lastTime + skipOf rawDelta ≤ t ∧ t < frameEnd lastTime rawDelta then 1 else 0 := by
  unfold frameQueried frameEnd advanceOf
  rw [count_tiles]

/-- The clock `last_time` never decreases over a run of frames. -/
theorem runEnd_mono : ∀ (ds : List Nat) (lastTime : Nat), lastTime ≤ runEnd lastTime ds := by
  intro ds
  induction ds with
  | nil =>
    intro lastTime
    simp [runEnd]
  | cons d ds ih =>
    intro lastTime
    calc lastTime ≤ frameEnd lastTime d := by unfold frameEnd; omega
      _ ≤ runEnd (frameEnd lastTime d) ds := ih _
      _ = runEnd lastTime (d :: ds) := rfl

/-- Over any run of frames, the query intervals and the clamp-skipped
ranges together cover each simulated millisecond below the final clock
exactly once, and nothing at or above it. -/
theorem run_count (t : Nat) : ∀ (ds : List Nat) (lastTime : Nat),
    countContaining t (runQueried lastTime ds) + countContaining t (runSkipped lastTime ds)
      = if lastTime ≤ t ∧ t < runEnd lastTime ds then 1 else 0 := by
  intro ds
  induction ds with
  | nil =>
    intro lastTime
    have he : runEnd lastTime [] = lastTime := rfl
    rw [he, if_neg (by omega)]
    rfl
  | cons d ds ih =>
    intro lastTime
    have hq : runQueried lastTime (d :: ds)
        = frameQueried lastTime d ++ runQueried (frameEnd lastTime d) ds := rfl
    have hs : runSkipped lastTime (d :: ds)
        = (lastTime, skipOf d) :: runSkipped (frameEnd lastTime d) ds := rfl
    have he : runEnd lastTime (d :: ds) = runEnd (frameEnd lastTime d) ds := rfl
    rw [hq, hs, he, countContaining_append, countContaining_cons, frame_count]
    have hih := ih (frameEnd lastTime d)
    have h1 : lastTime + skipOf d ≤ frameEnd lastTime d := by unfold frameEnd; omega
    have h2 := runEnd_mono ds (frameEnd lastTime d)
    split_ifs at hih ⊢ <;> omega

/-- When no frame's raw elapsed time exceeds the 500 ms clamp, the skipped
ranges are all empty. -/
theorem runSkipped_count_zero (t : Nat) : ∀ (ds : List Nat) (lastTime : Nat),
    (∀ d ∈ ds, d ≤ 500) → countContaining t (runSkipped lastTime ds) = 0 := by
  intro ds
  induction ds with
  | nil =>
    intro lastTime _
    rfl
  | cons d ds ih =>
    intro lastTime hd
    have hs : runSkipped lastTime (d :: ds)
        = (lastTime, skipOf d) :: runSkipped (frameEnd lastTime d) ds := rfl
    rw [hs, countContaining_cons,
      ih (frameEnd lastTime d) (fun x hx => hd x (List.mem_cons_of_mem d hx))]
    have hle : d ≤ 500 := hd d (List.mem_cons_self d ds)
    have hz : skipOf d = 0 := by
      unfold skipOf
      rw [if_neg (by omega)]
    rw [hz, if_neg (by omega)]

/-- A burst's total emission over a list of query intervals is its `count`
times the number of intervals containing its `delay`. -/
theorem sumEmit_burst (count delay : Nat) : ∀ l : List (Nat × Nat),
    sumEmit (.Burst count delay) l = count * countContaining delay l := by
  intro l
  induction l with
  | nil => rfl
  | cons iv l ih =>
    have hs : sumEmit (.Burst count delay) (iv :: l)
        = (if iv.1 ≤ delay ∧ delay < iv.1 + iv.2 then count else 0)
          + sumEmit (.Burst count delay) l := by
      unfold sumEmit
      rw [List.map_cons, List.sum_cons]
      rfl
    rw [hs, ih, countContaining_cons]
    by_cases h : iv.1 ≤ delay ∧ delay < iv.1 + iv.2
    · rw [if_pos h, if_pos h, Nat.mul_add, Nat.mul_one]
    · rw [if_neg h, if_neg h]
      simp

/-- C8 counterexample: the query intervals do not partition all simulated
time below `last_time` when a frame exceeds the 500 ms clamp.  A single
frame of raw elapsed 1000 ms pushes `last_time` to 1000, yet millisecond
250 lies in no queried interval, and a burst with `delay = 250` emits
nothing over the whole run — it is skipped, not fired once. -/
theorem interval_coverage_counterexample :
    250 < runEnd 0 [1000] ∧
    countContaining 250 (runQueried 0 [1000]) = 0 ∧
    sumEmit (.Burst 5 250) (runQueried 0 [1000]) = 0 := by decide

/-- C8 amended: over any sequence of frames (simulated clock starting at
0), the query intervals together with the clamp-skipped ranges cover each
millisecond below the final `last_time` exactly once; a millisecond is
never in two queried intervals (no double fire); if no frame exceeds the
500 ms clamp the queried intervals alone cover each such millisecond
exactly once; and a burst's total emission over the run is its count times
the number of queried intervals containing its delay — so a burst below
`last_time` fires exactly once unless its delay fell in clamp-skipped
time, in which case it never fires. -/
theorem interval_coverage_amended (ds : List Nat) (t : Nat) (ht : t < runEnd 0 ds) :
    countContaining t (runQueried 0 ds) + countContaining t (runSkipped 0 ds) = 1 ∧
    countContaining t (runQueried 0 ds) ≤ 1 ∧
    ((∀ d ∈ ds, d ≤ 500) → countContaining t (runQueried 0 ds) = 1) ∧
    (∀ count : Nat, sumEmit (.Burst count t) (runQueried 0 ds)
      = count * countContaining t (runQueried 0 ds)) := by
  have hmain := run_count t ds 0
  rw [if_pos (by omega)] at hmain
  refine ⟨hmain, by omega, ?_, fun count => sumEmit_burst count t _⟩
  intro hall
  rw [runSkipped_count_zero t ds 0 hall] at hmain
  omega

/-- Witness for C8 amended: with one over-long frame of 1000 ms, simulated
millisecond 250 is covered exactly once by query-plus-skip. -/
theorem interval_coverage_amended_witness :
    countContaining 250 (runQueried 0 [1000]) + countContaining 250 (runSkipped 0 [1000]) = 1 :=
  (interval_coverage_amended [1000] 250 (by decide)).1

/-- C9: every validating `Mode` constructor fails (the assert panics,
modelled as `Except.error`) exactly when `rate > 1000` or a supplied delay
or duration is negative, and otherwise succeeds, storing the given rate
unmodified (no clamping). -/
theorem mode_constructor_validation :
    (∀ rate : Nat,
      (rate ≤ 1000 → Mode.continuous rate = .ok ⟨.Continuous rate 0 U64_MAX⟩) ∧
      (1000 < rate → ∃ msg, Mode.continuous rate = .error msg)) ∧
    (∀ (rate : Nat) (delay : ℝ),
      (rate ≤ 1000 → 0 ≤ delay → Mode.delayed_continuous rate delay
        = .ok ⟨.Continuous rate (round_time delay) U64_MAX⟩) ∧
      (1000 < rate ∨ delay < 0 → ∃ msg, Mode.delayed_continuous rate delay = .error msg)) ∧
    (∀ (rate : Nat) (duration : ℝ),
      (rate ≤ 1000 → 0 ≤ duration → Mode.finite_continuous rate duration
        = .ok ⟨.Continuous rate 0 (round_time duration)⟩) ∧
      (1000 < rate ∨ duration < 0 → ∃ msg, Mode.finite_continuous rate duration = .error msg)) ∧
    (∀ (rate : Nat) (delay duration : ℝ),
      (rate ≤ 1000 → 0 ≤ delay → 0 ≤ duration → Mode.delayed_finite_continuous rate delay duration
        = .ok ⟨.Continuous rate (round_time delay) (round_time (delay + duration))⟩) ∧
      (1000 < rate ∨ delay < 0 ∨ duration < 0 →
        ∃ msg, Mode.delayed_finite_continuous rate delay duration = .error msg)) ∧
    (∀ (count : Nat) (delay : ℝ),
      (0 ≤ delay → Mode.delayed_burst count delay = .ok ⟨.Burst count (round_time delay)⟩) ∧
      (delay < 0 → ∃ msg, Mode.delayed_burst count delay = .error msg)) := by
  refine ⟨?_, ?_, ?_, ?_, ?_⟩
  · intro rate
    constructor
    · intro h
      rw [Mode.continuous, if_pos h]
    · intro h
      rw [Mode.continuous, if_neg (by omega)]
      exact ⟨_, rfl⟩
  · intro rate delay
    constructor
    · intro h1 h2
      rw [Mode.delayed_continuous, if_pos h1, if_pos h2]
    · rintro (h | h)
      · rw [Mode.delayed_continuous, if_neg (by omega)]
        exact ⟨_, rfl⟩
      · rw [Mode.delayed_continuous]
        split
        · rw [if_neg (not_le.mpr h)]
          exact ⟨_, rfl⟩
        · exact ⟨_, rfl⟩
  · intro rate duration
    constructor
    · intro h1 h2
      rw [Mode.finite_continuous, if_pos h1, if_pos h2]
    · rintro (h | h)
      · rw [Mode.finite_continuous, if_neg (by omega)]
        exact ⟨_, rfl⟩
      · rw [Mode.finite_continuous]
        split
        · rw [if_neg (not_le.mpr h)]
          exact ⟨_, rfl⟩
        · exact ⟨_, rfl⟩
  · intro rate delay duration
    constructor
    · intro h1 h2 h3
      rw [Mode.delayed_finite_continuous, if_pos h1, if_pos h2, if_pos h3]
    · rintro (h | h | h)
      · rw [Mode.delayed_finite_continuous, if_neg (by omega)]
        exact ⟨_, rfl⟩
      · rw [Mode.delayed_finite_continuous]
        split
        · rw [if_neg (not_le.mpr h)]
          exact ⟨_, rfl⟩
        · exact ⟨_, rfl⟩
      · rw [Mode.delayed_finite_continuous]
        split
        · split
          · rw [if_neg (not_le.mpr h)]
            exact ⟨_, rfl⟩
          · exact ⟨_, rfl⟩
        · exact ⟨_, rfl⟩
  · intro count delay
    constructor
    · intro h
      rw [Mode.delayed_burst, if_pos h]
    · intro h
      rw [Mode.delayed_burst, if_neg (not_le.mpr h)]
      exact ⟨_, rfl⟩

/-- Witness for C9: `continuous 100` succeeds storing rate 100;
`continuous 1001` fails; `delayed_burst 5 0` succeeds. -/
theorem mode_constructor_validation_witness :
    Mode.continuous 100 = .ok ⟨.Continuous 100 0 U64_MAX⟩ ∧
    (∃ msg, Mode.continuous 1001 = .error msg) ∧
    Mode.delayed_burst 5 0 = .ok ⟨.Burst 5 (round_time 0)⟩ :=
  ⟨(mode_constructor_validation.1 100).1 (by decide),
   (mode_constructor_validation.1 1001).2 (by decide),
   (mode_constructor_validation.2.2.2.2 5 0).1 le_rfl⟩

/-- With a random draw `r ∈ [0, 1)` and a non-empty slice, the palette
index `floor(r * len)` is strictly in bounds. -/
theorem floorIndex_lt (r : ℝ) (len : Nat) (h0 : 0 ≤ r) (h1 : r < 1) (hlen : 0 < len) :
    floorIndex r len < len := by
  rw [floorIndex]
  have hmul : r * (len : ℝ) < len := by
    calc r * (len : ℝ) < 1 * len := by
          apply mul_lt_mul_of_pos_right h1
          exact_mod_cast hlen
      _ = len := one_mul _
  exact (Nat.floor_lt (by positivity)).mpr hmul

/-- C10: spawning indexes the colors and shapes slices at `floor(r * len)`
with `r ∈ [0, 1)`; for non-empty palettes the index is in bounds and
spawning succeeds, but an empty colors or shapes palette makes the lookup
miss (the out-of-bounds panic, modelled as `none`). -/
theorem spawn_palette_indexing :
    (∀ (props : ConfettiProps) (cannon : CannonProps) (r1 r2 r3 r4 r5 rColor rShape : ℝ),
      0 ≤ rColor → rColor < 1 → 0 ≤ rShape → rShape < 1 →
      cannon.colors ≠ [] → cannon.shapes ≠ [] →
      floorIndex rColor cannon.colors.length < cannon.colors.length ∧
      floorIndex rShape cannon.shapes.length < cannon.shapes.length ∧
      (Fetti.new props cannon r1 r2 r3 r4 r5 rColor rShape).isSome = true) ∧
    (∀ (props : ConfettiProps) (cannon : CannonProps) (r1 r2 r3 r4 r5 rColor rShape : ℝ),
      cannon.colors = [] →
      Fetti.new props cannon r1 r2 r3 r4 r5 rColor rShape = none) ∧
    (∀ (props : ConfettiProps) (cannon : CannonProps) (r1 r2 r3 r4 r5 rColor rShape : ℝ),
      cannon.shapes = [] →
      Fetti.new props cannon r1 r2 r3 r4 r5 rColor rShape = none) := by
  refine ⟨?_, ?_, ?_⟩
  · intro props cannon r1 r2 r3 r4 r5 rColor rShape hc0 hc1 hs0 hs1 hcne hsne
    have hc := floorIndex_lt rColor cannon.colors.length hc0 hc1 (List.length_pos.mpr hcne)
    have hs := floorIndex_lt rShape cannon.shapes.length hs0 hs1 (List.length_pos.mpr hsne)
    refine ⟨hc, hs, ?_⟩
    unfold Fetti.new
    rw [List.getElem?_eq_getElem hc, List.getElem?_eq_getElem hs]
    rfl
  · intro props cannon r1 r2 r3 r4 r5 rColor rShape hcol
    unfold Fetti.new
    rw [hcol]
    rfl
  · intro props cannon r1 r2 r3 r4 r5 rColor rShape hsh
    unfold Fetti.new
    rw [hsh]
    rcases hx : cannon.colors[floorIndex rColor cannon.colors.length]? with _ | c <;> rfl

/-- Witness for C10 at singleton palettes and all random draws 0. -/
theorem spawn_palette_indexing_witness :
    (Fetti.new {} { colors := ["#26ccff"], shapes := [Shape.Circle] }
      0 0 0 0 0 0 0).isSome = true :=
  (spawn_palette_indexing.1 {} { colors := ["#26ccff"], shapes := [Shape.Circle] }
    0 0 0 0 0 0 0 le_rfl zero_lt_one le_rfl zero_lt_one
    (List.cons_ne_nil _ _) (List.cons_ne_nil _ _)).2.2
